import Mathlib

/-
Verification development for the openglobus visibility / tile-material core.

The JavaScript sources under src/ are shallowly embedded below:
pure functions become Lean functions, methods that mutate an object become
functions from the old record to the new record, JS numbers are modelled as
exact rationals where only equality and order matter and as real numbers
where trigonometry is involved, and code paths that raise a JS runtime
exception are modelled with Except.
-/

namespace OG

/-- Shallow embedding of a JS runtime exception.  The only exception the
embedded code can raise is the TypeError produced by assigning to a
binding that was declared with the JS keyword for an immutable binding
(an ES module always runs in strict mode, and such an assignment throws
in sloppy mode as well). -/
inductive JsError where
  | typeError : JsError
deriving DecidableEq

/-- Embedding of og/math/Vec3.js data: a 3-component vector over a scalar
type (components x, y, z). -/
structure Vec3 (α : Type) where
  x : α
  y : α
  z : α
deriving DecidableEq

attribute [ext] Vec3

/-- Modelled from the spec: og/math/Vec3.js is not under src/ (the spec treats
vector math as a pure utility); Vec3.distance is the Euclidean distance
between two points. -/
noncomputable def Vec3.distR (a b : Vec3 ℝ) : ℝ :=
  Real.sqrt ((b.x - a.x) ^ 2 + (b.y - a.y) ^ 2 + (b.z - a.z) ^ 2)

/-- Embedding of og/LonLat.js data: longitude, latitude and height.  The JS
constructor defaults every missing (or falsy) argument to 0, so a LonLat
built as new LonLat(lon, lat) carries height 0. -/
structure LonLat (α : Type) where
  lon : α
  lat : α
  height : α
deriving DecidableEq

/-- Embedding of the two-argument use of the LonLat constructor,
new LonLat(lon, lat): the absent height defaults to 0. -/
def LonLat.make {α : Type} [Zero α] (lon lat : α) : LonLat α :=
  ⟨lon, lat, 0⟩

/-- Embedding of LonLat.prototype.equal (og/LonLat.js).  The method reads
value.height as a JS truthiness test; for a number height (heights are
modelled as exact rationals, so NaN does not arise) the test is false
exactly when height = 0.  When the compared value's height is falsy only
lon and lat are compared, otherwise all three components are. -/
def LonLat.equal (a v : LonLat ℚ) : Bool :=
  if v.height ≠ 0 then
    decide (a.lon = v.lon) && decide (a.lat = v.lat) && decide (a.height = v.height)
  else
    decide (a.lon = v.lon) && decide (a.lat = v.lat)

/-- Embedding of og/Extent.js data: south-west and north-east corners. -/
structure Extent (α : Type) where
  southWest : LonLat α
  northEast : LonLat α
deriving DecidableEq

/-- Modelled from the spec: og/math.js is not under src/; the spec refers to
the math library's MAX constant (used by Camera far plane and as the seed of
min/max scans).  Its exact value is irrelevant to the claims below; only
mathMIN < mathMAX matters, which holds for any seed pair. -/
def mathMAX {α : Type} [LinearOrderedField α] : α := 549755748352

/-- Modelled from the spec: the math library's MIN constant, the negation of
mathMAX. -/
def mathMIN {α : Type} [LinearOrderedField α] : α := -549755748352

/-- Embedding of the loop body of Extent.createByCoordinates (og/Extent.js,
lines 1078-1090 of the concatenated source).  The JS declares the four
accumulators lonmin, lonmax, latmin, latmax as immutable bindings and then
assigns to them inside the loop; each of the four guarded assignments
therefore raises a TypeError when its guard is true.  The accumulators can
never change, so every iteration compares against the seeds mathMAX and
mathMIN. -/
def createByCoordinatesLoop : List (LonLat ℚ) → Except JsError Unit
  | [] => Except.ok ()
  | vi :: rest =>
    if vi.lon < mathMAX then Except.error JsError.typeError
    else if vi.lon > mathMIN then Except.error JsError.typeError
    else if vi.lat < mathMAX then Except.error JsError.typeError
    else if vi.lat > mathMIN then Except.error JsError.typeError
    else createByCoordinatesLoop rest

/-- Embedding of Extent.createByCoordinates (og/Extent.js).  When the loop
finishes without throwing, the accumulators still hold their seeds, so the
returned extent is built from mathMAX / mathMIN. -/
def Extent.createByCoordinates (arr : List (LonLat ℚ)) : Except JsError (Extent ℚ) :=
  (createByCoordinatesLoop arr).map fun _ =>
    ⟨LonLat.make mathMAX mathMAX, LonLat.make mathMIN mathMIN⟩

/-- Modelled from the spec: og/ellipsoid/Ellipsoid.js is not under src/ (only
its constructions are).  The spec describes an ellipsoid as the immutable
pair of semi-axes together with the pure geodetic-to-Cartesian conversion,
which is embedded as an opaque pure function field. -/
structure Ellipsoid where
  a : ℝ
  b : ℝ
  lonLatToCartesian : LonLat ℝ → Vec3 ℝ

/-- Embedding of the four corner points enumerated by
Extent.getCartesianBounds (og/Extent.js): SW, NW, NE, SE, each built with
the two-argument LonLat constructor. -/
def Extent.cartesianBoundsCorners (e : Extent ℝ) : List (LonLat ℝ) :=
  [ ⟨e.southWest.lon, e.southWest.lat, 0⟩
  , ⟨e.southWest.lon, e.northEast.lat, 0⟩
  , ⟨e.northEast.lon, e.northEast.lat, 0⟩
  , ⟨e.northEast.lon, e.southWest.lat, 0⟩ ]

/-- Embedding of the loop body of Extent.getCartesianBounds (og/Extent.js,
lines 1341-1367 of the concatenated source).  As in createByCoordinates,
the six accumulators xmin..zmax are declared as immutable bindings and
assigned inside the loop, so each guarded assignment raises a TypeError
when its guard is true and the accumulators keep their seeds mathMAX and
mathMIN. -/
noncomputable def getCartesianBoundsLoop (ell : Ellipsoid) : List (LonLat ℝ) → Except JsError Unit
  | [] => Except.ok ()
  | vi :: rest =>
    let coord := ell.lonLatToCartesian vi
    if coord.x < mathMAX then Except.error JsError.typeError
    else if coord.x > mathMIN then Except.error JsError.typeError
    else if coord.y < mathMAX then Except.error JsError.typeError
    else if coord.y > mathMIN then Except.error JsError.typeError
    else if coord.z < mathMAX then Except.error JsError.typeError
    else if coord.z > mathMIN then Except.error JsError.typeError
    else getCartesianBoundsLoop ell rest

/-- Embedding of Extent.getCartesianBounds (og/Extent.js): projects the four
corners through the ellipsoid and scans for componentwise min/max; the
returned array is [xmin, ymin, zmin, xmax, ymax, zmax] built from the
accumulators (still the seeds if the loop were ever to finish). -/
noncomputable def Extent.getCartesianBounds (e : Extent ℝ) (ell : Ellipsoid) :
    Except JsError (List ℝ) :=
  (getCartesianBoundsLoop ell e.cartesianBoundsCorners).map fun _ =>
    [mathMAX, mathMAX, mathMAX, mathMIN, mathMIN, mathMIN]

/-- Embedding of og/bv/Sphere.js data: radius and center. -/
structure Sphere where
  radius : ℝ
  center : Vec3 ℝ

/-- Embedding of Sphere.setFromBounds (og/bv/Sphere.js lines 41-49).  The
source builds m from bounds[0..2] and then sets the center as
(m.x + (bounds[3] - m.x) * 0.5, m.y + (bounds[3] - m.y) * 0.5,
 m.z + (bounds[5] - m.z) * 0.5) - note that the y component is computed
from bounds[3], exactly as written in the JS - and the radius as the
distance from the new center to m. -/
noncomputable def Sphere.setFromBounds (bounds : Fin 6 → ℝ) : Sphere :=
  let m : Vec3 ℝ := ⟨bounds 0, bounds 1, bounds 2⟩
  let center : Vec3 ℝ :=
    ⟨m.x + (bounds 3 - m.x) * 0.5, m.y + (bounds 3 - m.y) * 0.5,
     m.z + (bounds 5 - m.z) * 0.5⟩
  ⟨center.distR m, center⟩

/-- Embedding of Sphere.setFromExtent (og/bv/Sphere.js lines 56-58):
delegates to extent.getCartesianBounds and then to setFromBounds.  The
bounds list always has six elements when it exists, so it is read back
through a 6-element accessor. -/
noncomputable def Sphere.setFromExtent (ell : Ellipsoid) (e : Extent ℝ) : Except JsError Sphere :=
  (e.getCartesianBounds ell).map fun bs =>
    Sphere.setFromBounds fun i => bs.getD i.val 0

/-- Statement of the claimed center of setFromBounds, written from the spec:
the componentwise midpoint of the min corner (bounds[0..2]) and the max
corner (bounds[3..5]). -/
noncomputable def boundsMidpoint (bounds : Fin 6 → ℝ) : Vec3 ℝ :=
  ⟨(bounds 0 + bounds 3) / 2, (bounds 1 + bounds 4) / 2, (bounds 2 + bounds 5) / 2⟩

/-- Concrete bounds array [0, 0, 0, 2, 4, 6] used to exhibit the
setFromBounds slip. -/
noncomputable def exBounds : Fin 6 → ℝ := ![0, 0, 0, 2, 4, 6]

/-- Embedding of the part of a Segment that Material reads
(og/layer/Material.js): the initialized flag, the owning node's id
(segment.node.nodeId) and the texture factory
(segment.handler.createTexture); Segment.js and Handler.createTexture are
outside the Material source, so the factory is an opaque pure function from
images to GPU texture handles (both modelled as naturals). -/
structure Segment where
  initialized : Bool
  nodeId : ℕ
  createTexture : ℕ → ℕ

/-- Embedding of og/layer/Material.js state.  GPU texture handles, picking
masks and images are modelled as naturals; a JS null handle is none.
The layer reference is modelled as a layer id. -/
structure Material where
  segment : Segment
  layer : ℕ
  isReady : Bool
  isLoading : Bool
  texture : Option ℕ
  pickingMask : Option ℕ
  textureExists : Bool
  appliedNodeId : ℕ
  texOffset : List ℚ
  loadingAttempts : ℕ
  updateTexture : Option ℕ
  updatePickingMask : Option ℕ
  pickingReady : Bool

/-- Embedding of the Material texOffset identity value [0, 0, 1, 1]. -/
def identityTexOffset : List ℚ := [0, 0, 1, 1]

/-- Embedding of the Material constructor (og/layer/Material.js lines
19-36). -/
def Material.create (segment : Segment) (layer : ℕ) : Material :=
  { segment := segment
    layer := layer
    isReady := false
    isLoading := false
    texture := none
    pickingMask := none
    textureExists := false
    appliedNodeId := 0
    texOffset := identityTexOffset
    loadingAttempts := 0
    updateTexture := none
    updatePickingMask := none
    pickingReady := false }

/-- Embedding of Material.assignLayer. -/
def Material.assignLayer (m : Material) (layer : ℕ) : Material :=
  { m with layer := layer }

/-- Embedding of Material.applyImage (og/layer/Material.js lines 46-58):
guarded by segment.initialized; on success creates a texture from the
image, records the owning node id, raises the ready flags, clears the
loading flag and resets texOffset to the identity.  When the segment is
no longer initialized nothing happens. -/
def Material.applyImage (m : Material) (img : ℕ) : Material :=
  if m.segment.initialized then
    { m with
      updateTexture := none
      texture := some (m.segment.createTexture img)
      appliedNodeId := m.segment.nodeId
      isReady := true
      pickingReady := true
      textureExists := true
      isLoading := false
      texOffset := identityTexOffset }
  else m

/-- Embedding of Material.applyTexture (og/layer/Material.js lines 60-73):
the given texture handle is adopted directly; pickingMask follows the JS
expression pickingMask || null (none stays none). -/
def Material.applyTexture (m : Material) (texture : ℕ) (pickingMask : Option ℕ) :
    Material :=
  if m.segment.initialized then
    { m with
      texture := some texture
      updateTexture := none
      pickingMask := pickingMask
      updatePickingMask := none
      isReady := true
      pickingReady := true
      textureExists := true
      isLoading := false
      appliedNodeId := m.segment.nodeId
      texOffset := identityTexOffset }
  else m

/-- Embedding of Material.textureNotExists (og/layer/Material.js lines
75-82). -/
def Material.textureNotExists (m : Material) : Material :=
  if m.segment.initialized then
    { m with
      pickingReady := true
      isLoading := false
      isReady := true
      textureExists := false }
  else m

/-- Modelled from the spec: og/layer/Layer.js is not under src/.  The spec
requires a Layer to implement clearMaterial (release the Material's GPU
resources, returning the state to Empty: texture released, flags down). -/
def Layer.clearMaterial (m : Material) : Material :=
  { m with
    texture := none
    pickingMask := none
    updateTexture := none
    updatePickingMask := none
    isReady := false
    isLoading := false
    pickingReady := false
    textureExists := false }

/-- Modelled from the spec: the Layer's abortMaterialLoading cancels the
in-flight fetch for this Material, so the Material is no longer loading. -/
def Layer.abortMaterialLoading (m : Material) : Material :=
  { m with isLoading := false }

/-- Embedding of Material.abortLoading (og/layer/Material.js lines 42-44):
delegates to the owning Layer. -/
def Material.abortLoading (m : Material) : Material :=
  Layer.abortMaterialLoading m

/-- Embedding of Material.clear (og/layer/Material.js lines 84-87): resets
loadingAttempts to 0 and delegates GPU release to the Layer. -/
def Material.clear (m : Material) : Material :=
  Layer.clearMaterial { m with loadingAttempts := 0 }

/-- Statement of the Material invariant of the spec: a ready Material is not
loading. -/
def materialInvariant (m : Material) : Prop :=
  m.isReady = true → m.isLoading = false

/-- Concrete segment with initialized geometry, node id 3 and the identity
texture factory, used for witnesses. -/
def exSegmentLive : Segment := ⟨true, 3, fun img => img⟩

/-- Concrete segment whose geometry has been destroyed (initialized =
false). -/
def exSegmentDead : Segment := ⟨false, 3, fun img => img⟩

/-- Concrete Material owned by a live segment. -/
def exMaterialLive : Material := Material.create exSegmentLive 1

/-- Concrete Material owned by a destroyed segment. -/
def exMaterialDead : Material := Material.create exSegmentDead 1

/-- Embedding of the camera pose compared by Camera.checkMoveEnd
(og/camera/Camera.js): eye and the basis vectors u, v, n.  The JS
comparison is exact componentwise equality (Vec3.equal), so the
components are modelled as exact rationals. -/
structure CamPose where
  eye : Vec3 ℚ
  u : Vec3 ℚ
  v : Vec3 ℚ
  n : Vec3 ℚ
deriving DecidableEq

/-- Embedding of the move-end bookkeeping of Camera: the previous frame's
snapshot (_peye, _pu, _pv, _pn) and the _moved flag.  The constructor
clones the initial pose into the snapshot and starts with _moved =
false. -/
structure MoveState where
  prev : CamPose
  moved : Bool
deriving DecidableEq

/-- Embedding of Camera.checkMoveEnd (og/camera/Camera.js lines 188-214)
for one frame: given whether a moveend handler is registered, the current
pose and the bookkeeping state, returns whether moveend is dispatched this
frame and the new bookkeeping state.  When no handler is registered the
whole equality check (and the _moved update) is skipped, but the snapshot
is still refreshed. -/
def checkMoveEnd (hasHandlers : Bool) (p : CamPose) (s : MoveState) :
    Bool × MoveState :=
  if hasHandlers then
    if s.prev = p then
      (s.moved, { prev := p, moved := false })
    else
      (false, { prev := p, moved := true })
  else
    (false, { prev := p, moved := s.moved })

/-- Iterates checkMoveEnd over the poses of successive frames, collecting
the per-frame dispatch flags and the final bookkeeping state. -/
def runMoveEnd (hasHandlers : Bool) : List CamPose → MoveState → List Bool × MoveState
  | [], s => ([], s)
  | p :: rest, s =>
    let r := checkMoveEnd hasHandlers p s
    let t := runMoveEnd hasHandlers rest r.2
    (r.1 :: t.1, t.2)

/-- Number of moveend dispatches over a frame sequence, with a moveend
handler registered. -/
def moveEndFires (ps : List CamPose) (s : MoveState) : ℕ :=
  ((runMoveEnd true ps s).1).count true

/-- Concrete camera pose (the basis the Camera constructor starts from). -/
def exPose0 : CamPose :=
  ⟨⟨0, 0, 0⟩, ⟨0, 1, 0⟩, ⟨1, 0, 0⟩, ⟨0, 0, 1⟩⟩

/-- Concrete camera pose that differs from exPose0 (eye slid by one unit
along x). -/
def exPose1 : CamPose :=
  ⟨⟨1, 0, 0⟩, ⟨0, 1, 0⟩, ⟨1, 0, 0⟩, ⟨0, 0, 1⟩⟩

/-- Embedding of the math library constant RADIANS = pi / 180 (degrees to
radians), as used by Camera. -/
noncomputable def RADIANS : ℝ := Real.pi / 180

/-- Embedding of the camera state mutated by the pose operations
(og/camera/Camera.js): eye and the basis u (right), v (up), n (back),
over real scalars because the rotations use cosine and sine. -/
structure CamState where
  eye : Vec3 ℝ
  u : Vec3 ℝ
  v : Vec3 ℝ
  n : Vec3 ℝ

attribute [ext] CamState

/-- Embedding of Camera.slide (og/camera/Camera.js lines 419-423): moves the
eye by du, dv, dn along the current basis; the basis is untouched. -/
noncomputable def CamState.slide (c : CamState) (du dv dn : ℝ) : CamState :=
  { c with
    eye :=
      ⟨c.eye.x + du * c.u.x + dv * c.v.x + dn * c.n.x,
       c.eye.y + du * c.u.y + dv * c.v.y + dn * c.n.y,
       c.eye.z + du * c.u.z + dv * c.v.z + dn * c.n.z⟩ }

/-- Embedding of Camera.pitch (og/camera/Camera.js lines 451-465): with
cs = cos(RADIANS * angle), sn = sin(RADIANS * angle) and t a clone of the
old n, sets n to cs * t - sn * v and v to sn * t + cs * v, where v on the
right-hand sides is the old v (the JS mutates n first but only reads t and
the still-unmodified v). -/
noncomputable def CamState.pitch (c : CamState) (angle : ℝ) : CamState :=
  let cs := Real.cos (RADIANS * angle)
  let sn := Real.sin (RADIANS * angle)
  let t := c.n
  { c with
    n := ⟨cs * t.x - sn * c.v.x, cs * t.y - sn * c.v.y, cs * t.z - sn * c.v.z⟩
    v := ⟨sn * t.x + cs * c.v.x, sn * t.y + cs * c.v.y, sn * t.z + cs * c.v.z⟩ }

/-- Embedding of Camera.yaw (og/camera/Camera.js lines 472-486): with t a
clone of the old u, sets u to cs * t - sn * n and n to sn * t + cs * n
(n still unmodified when read). -/
noncomputable def CamState.yaw (c : CamState) (angle : ℝ) : CamState :=
  let cs := Real.cos (RADIANS * angle)
  let sn := Real.sin (RADIANS * angle)
  let t := c.u
  { c with
    u := ⟨cs * t.x - sn * c.n.x, cs * t.y - sn * c.n.y, cs * t.z - sn * c.n.z⟩
    n := ⟨sn * t.x + cs * c.n.x, sn * t.y + cs * c.n.y, sn * t.z + cs * c.n.z⟩ }

/-- Embedding of Camera.roll (og/camera/Camera.js lines 430-444): with t a
clone of the old u, sets u to cs * t - sn * v and v to sn * t + cs * v. -/
noncomputable def CamState.roll (c : CamState) (angle : ℝ) : CamState :=
  let cs := Real.cos (RADIANS * angle)
  let sn := Real.sin (RADIANS * angle)
  let t := c.u
  { c with
    u := ⟨cs * t.x - sn * c.v.x, cs * t.y - sn * c.v.y, cs * t.z - sn * c.v.z⟩
    v := ⟨sn * t.x + cs * c.v.x, sn * t.y + cs * c.v.y, sn * t.z + cs * c.v.z⟩ }

/-- Concrete camera state with the constructor's initial basis
u = (0,1,0), v = (1,0,0), n = (0,0,1) and the eye at the origin. -/
noncomputable def exCam : CamState :=
  ⟨⟨0, 0, 0⟩, ⟨0, 1, 0⟩, ⟨1, 0, 0⟩, ⟨0, 0, 1⟩⟩

/-- Embedding of the camera data that projectedSize reads
(og/camera/Camera.js): the eye, the canvas client dimensions and the view
angle in degrees (_viewAngle). -/
structure CameraProj where
  eye : Vec3 ℝ
  clientWidth : ℝ
  clientHeight : ℝ
  viewAngle : ℝ

/-- Embedding of the _projSizeConst assignment in Camera._setProj
(og/camera/Camera.js line 344):
min(canvas.clientWidth, canvas.clientHeight) / (angle * RADIANS). -/
noncomputable def CameraProj.projSizeConst (c : CameraProj) : ℝ :=
  min c.clientWidth c.clientHeight / (c.viewAngle * RADIANS)

/-- Embedding of Camera.projectedSize (og/camera/Camera.js lines 579-581):
atan(r / eye.distance(p)) * _projSizeConst. -/
noncomputable def CameraProj.projectedSize (c : CameraProj) (p : Vec3 ℝ) (r : ℝ) : ℝ :=
  Real.arctan (r / c.eye.distR p) * c.projSizeConst

/-- Concrete camera for the projectedSize witness: eye at the origin, a
100 x 100 viewport and a 45 degree view angle. -/
noncomputable def exCamProj : CameraProj :=
  ⟨⟨0, 0, 0⟩, 100, 100, 45⟩

/-- Embedding of the viewport dimensions of a framebuffer (its _width and
_height) or of the canvas. -/
structure FBDims where
  width : ℕ
  height : ℕ
deriving DecidableEq

/-- Embedding of the GL state touched by Framebuffer.activate and
Framebuffer.deactivate (og/webgl/Framebuffer.js lines 327-357): the canvas
dimensions, the current viewport and the handler's process-wide stack of
active render targets.  Modelled from the spec where the Stack class is
concerned: og/Stack.js is not under src/, and the spec describes it as a
LIFO stack whose popPrev removes the top and exposes the new top; it is
embedded as a Lean list with the top at the head. -/
structure GLState where
  canvas : FBDims
  viewport : FBDims
  stack : List FBDims
deriving DecidableEq

/-- Embedding of Framebuffer.activate (og/webgl/Framebuffer.js lines
327-337): binds the target, sets the viewport to the target's size and
pushes the target onto the stack. -/
def activateFB (fb : FBDims) (st : GLState) : GLState :=
  { st with viewport := fb, stack := fb :: st.stack }

/-- Embedding of Framebuffer.deactivate (og/webgl/Framebuffer.js lines
343-357): pops the stack; if a previous target remains it rebinds it and
restores its viewport, otherwise the viewport returns to the canvas
size. -/
def deactivateFB (st : GLState) : GLState :=
  let rest := st.stack.tail
  { st with stack := rest, viewport := rest.head?.getD st.canvas }

/-- Statement of the render-target stack viewport invariant: the viewport
shows the top of the stack, or the canvas when no target is active. -/
def viewportConsistent (st : GLState) : Prop :=
  st.viewport = st.stack.head?.getD st.canvas

/-- Concrete initial GL state: an 800 x 600 canvas, viewport at canvas
size, no active render target. -/
def exScreen : GLState := ⟨⟨800, 600⟩, ⟨800, 600⟩, []⟩

/-- Concrete 256 x 256 render target A of the spec scenario. -/
def exFbA : FBDims := ⟨256, 256⟩

/-- Concrete 512 x 512 render target B of the spec scenario. -/
def exFbB : FBDims := ⟨512, 512⟩

attribute [ext] GLState

/-- C10: LonLat.equal ignores heights when the compared value's height is
falsy (zero, as an unset height defaults to): it is then true iff lon and
lat agree, while for a truthy height all three components are compared;
in particular new LonLat(1,2,0).equal(new LonLat(1,2)) is true. -/
theorem c10_lonLat_equal (a b : LonLat ℚ) :
    (b.height = 0 → (a.equal b = true ↔ a.lon = b.lon ∧ a.lat = b.lat))
    ∧ (b.height ≠ 0 →
        (a.equal b = true ↔ a.lon = b.lon ∧ a.lat = b.lat ∧ a.height = b.height))
    ∧ (LonLat.mk 1 2 0).equal (LonLat.make 1 2) = true := by
  refine ⟨fun h => ?_, fun h => ?_, by decide⟩
  · simp [LonLat.equal, h]
  · simp [LonLat.equal, h, and_assoc]

/-- Closed instance of c10_lonLat_equal at concrete coordinates. -/
theorem c10_lonLat_equal_witness :
    ((LonLat.mk 1 2 5).equal (LonLat.mk 1 2 0) = true ↔ (1 : ℚ) = 1 ∧ (2 : ℚ) = 2)
    ∧ ((LonLat.mk 1 2 5).equal (LonLat.mk 1 2 5) = true ↔
        (1 : ℚ) = 1 ∧ (2 : ℚ) = 2 ∧ (5 : ℚ) = 5) :=
  ⟨(c10_lonLat_equal ⟨1, 2, 5⟩ ⟨1, 2, 0⟩).1 rfl,
   (c10_lonLat_equal ⟨1, 2, 5⟩ ⟨1, 2, 5⟩).2.1 (by decide)⟩

/-- C3: when the owning segment is still initialized, applyImage raises
isReady, textureExists and pickingReady, clears isLoading, resets
texOffset to the identity [0,0,1,1] and records the owning node's id;
when the segment is no longer initialized, applyImage, applyTexture and
textureNotExists leave the Material completely unchanged. -/
theorem c3_applyImage (m : Material) (img tex : ℕ) (pm : Option ℕ) :
    (m.segment.initialized = true →
      (m.applyImage img).isReady = true
      ∧ (m.applyImage img).textureExists = true
      ∧ (m.applyImage img).isLoading = false
      ∧ (m.applyImage img).pickingReady = true
      ∧ (m.applyImage img).texOffset = identityTexOffset
      ∧ (m.applyImage img).appliedNodeId = m.segment.nodeId)
    ∧ (m.segment.initialized = false →
      m.applyImage img = m ∧ m.applyTexture tex pm = m ∧ m.textureNotExists = m) := by
  constructor
  · intro h
    simp [Material.applyImage, h]
  · intro h
    simp [Material.applyImage, Material.applyTexture, Material.textureNotExists, h]

/-- Closed instance of c3_applyImage on a live and on a destroyed
segment. -/
theorem c3_applyImage_witness :
    (exMaterialLive.applyImage 7).isReady = true
    ∧ (exMaterialLive.applyImage 7).appliedNodeId = exMaterialLive.segment.nodeId
    ∧ exMaterialDead.applyImage 7 = exMaterialDead :=
  ⟨((c3_applyImage exMaterialLive 7 0 none).1 rfl).1,
   ((c3_applyImage exMaterialLive 7 0 none).1 rfl).2.2.2.2.2,
   ((c3_applyImage exMaterialDead 7 0 none).2 rfl).1⟩

/-- C9: the invariant isReady = true implies isLoading = false holds for a
freshly constructed Material and is preserved by assignLayer, abortLoading,
applyImage, applyTexture, textureNotExists and clear. -/
theorem c9_material_invariant (m : Material) (seg : Segment)
    (lay lay2 img tex : ℕ) (pm : Option ℕ) (h : materialInvariant m) :
    materialInvariant (Material.create seg lay)
    ∧ materialInvariant (m.assignLayer lay2)
    ∧ materialInvariant m.abortLoading
    ∧ materialInvariant (m.applyImage img)
    ∧ materialInvariant (m.applyTexture tex pm)
    ∧ materialInvariant m.textureNotExists
    ∧ materialInvariant m.clear := by
  refine ⟨?_, ?_, ?_, ?_, ?_, ?_, ?_⟩
  · simp [materialInvariant, Material.create]
  · exact h
  · simp [materialInvariant, Material.abortLoading, Layer.abortMaterialLoading]
  · unfold materialInvariant Material.applyImage
    split
    · simp
    · exact h
  · unfold materialInvariant Material.applyTexture
    split
    · simp
    · exact h
  · unfold materialInvariant Material.textureNotExists
    split
    · simp
    · exact h
  · simp [materialInvariant, Material.clear, Layer.clearMaterial]

/-- Closed instance of c9_material_invariant at a concrete Material. -/
theorem c9_material_invariant_witness :
    materialInvariant (exMaterialLive.applyImage 7)
    ∧ materialInvariant exMaterialLive.clear :=
  ⟨(c9_material_invariant exMaterialLive exSegmentLive 1 2 7 8 none
      (fun _ => rfl)).2.2.2.1,
   (c9_material_invariant exMaterialLive exSegmentLive 1 2 7 8 none
      (fun _ => rfl)).2.2.2.2.2.2⟩

/-- C2 (bug evaluation): on the bounds array [0, 0, 0, 2, 4, 6] the embedded
setFromBounds produces the center (1, 1, 3) - its y component is computed
from bounds[3] = maxX - whereas the componentwise midpoint of the min and
max corners claimed by the spec is (1, 2, 3). -/
theorem c2_setFromBounds_bug :
    (Sphere.setFromBounds exBounds).center = ⟨1, 1, 3⟩
    ∧ boundsMidpoint exBounds = ⟨1, 2, 3⟩
    ∧ (Sphere.setFromBounds exBounds).center ≠ boundsMidpoint exBounds := by
  have b0 : exBounds 0 = 0 := rfl
  have b1 : exBounds 1 = 0 := rfl
  have b2 : exBounds 2 = 0 := rfl
  have b3 : exBounds 3 = 2 := rfl
  have b4 : exBounds 4 = 4 := rfl
  have b5 : exBounds 5 = 6 := rfl
  refine ⟨?_, ?_, ?_⟩
  · simp only [Sphere.setFromBounds, b0, b1, b2, b3, b5]
    ext <;> norm_num
  · simp only [boundsMidpoint, b0, b1, b2, b3, b4, b5]
    ext <;> norm_num
  · simp only [Sphere.setFromBounds, boundsMidpoint, b0, b1, b2, b3, b4, b5]
    intro hcontra
    have := congrArg Vec3.y hcontra
    norm_num at this

/-- C8 (bug evaluation): Extent.createByCoordinates raises a TypeError on
every non-empty coordinate array, because its min/max accumulators are
immutable bindings assigned inside the scan loop. -/
theorem c8_createByCoordinates_throws (vi : LonLat ℚ) (rest : List (LonLat ℚ)) :
    Extent.createByCoordinates (vi :: rest) = Except.error JsError.typeError := by
  unfold Extent.createByCoordinates createByCoordinatesLoop
  rcases lt_or_ge vi.lon mathMAX with h | h
  · rw [if_pos h]
    rfl
  · have h2 : vi.lon > mathMIN :=
      lt_of_lt_of_le (by norm_num [mathMIN, mathMAX]) h
    rw [if_neg (not_lt.mpr h), if_pos h2]
    rfl

/-- Helper for C1: the corner scan of getCartesianBounds raises a TypeError
on any non-empty corner list: whatever the first Cartesian corner is, one
of the first two guarded accumulator assignments runs. -/
theorem getCartesianBoundsLoop_throws (ell : Ellipsoid) (vi : LonLat ℝ)
    (rest : List (LonLat ℝ)) :
    getCartesianBoundsLoop ell (vi :: rest) = Except.error JsError.typeError := by
  unfold getCartesianBoundsLoop
  rcases lt_or_ge (ell.lonLatToCartesian vi).x mathMAX with h | h
  · rw [if_pos h]
  · have h2 : (ell.lonLatToCartesian vi).x > mathMIN :=
      lt_of_lt_of_le (by norm_num [mathMIN, mathMAX]) h
    rw [if_neg (not_lt.mpr h), if_pos h2]

/-- C1 (bug evaluation): Sphere.setFromExtent raises a TypeError for every
ellipsoid and every extent, because Extent.getCartesianBounds assigns to
immutable accumulator bindings while scanning the four corners; no sphere
is ever produced. -/
theorem c1_setFromExtent_throws (ell : Ellipsoid) (e : Extent ℝ) :
    Sphere.setFromExtent ell e = Except.error JsError.typeError := by
  unfold Sphere.setFromExtent Extent.getCartesianBounds Extent.cartesianBoundsCorners
  rw [getCartesianBoundsLoop_throws]
  rfl

/-- C7: with the viewport showing the top of the render-target stack (or
the canvas when the stack is empty), deactivate undoes activate exactly;
in the spec scenario, with A (256 x 256) active, activating then
deactivating B (512 x 512) restores the 256 x 256 viewport, and
deactivating A restores the canvas size. -/
theorem c7_framebuffer_stack (st : GLState) (fb : FBDims)
    (h : viewportConsistent st) :
    deactivateFB (activateFB fb st) = st
    ∧ deactivateFB (activateFB exFbB (activateFB exFbA exScreen)) =
        activateFB exFbA exScreen
    ∧ (deactivateFB (activateFB exFbB (activateFB exFbA exScreen))).viewport =
        ⟨256, 256⟩
    ∧ deactivateFB (activateFB exFbA exScreen) = exScreen
    ∧ (deactivateFB (activateFB exFbA exScreen)).viewport = exScreen.canvas := by
  refine ⟨?_, by decide, by decide, by decide, by decide⟩
  unfold viewportConsistent at h
  ext : 1
  · rfl
  · exact h.symm
  · rfl

/-- Closed instance of c7_framebuffer_stack: activating and deactivating B
on top of the active A returns the GL state to exactly what it was. -/
theorem c7_framebuffer_stack_witness :
    deactivateFB (activateFB exFbB (activateFB exFbA exScreen)) =
      activateFB exFbA exScreen :=
  (c7_framebuffer_stack (activateFB exFbA exScreen) exFbB rfl).1

/-- Helper for C4: while the pose equals the snapshot and the moved flag is
down, checkMoveEnd never fires and the state is unchanged. -/
theorem runMoveEnd_stationary (q : CamPose) (n : ℕ) :
    runMoveEnd true (List.replicate n q) ⟨q, false⟩ =
      (List.replicate n false, ⟨q, false⟩) := by
  induction n with
  | zero => rfl
  | succ k ih =>
    simp only [List.replicate_succ, runMoveEnd, checkMoveEnd, if_pos rfl, if_true, ih]

/-- Helper for C4: while every frame's pose differs from the previous one,
checkMoveEnd never fires; afterwards the snapshot is the last pose and the
moved flag is up (unless no frame was processed). -/
theorem runMoveEnd_moving (ps : List CamPose) :
    ∀ (prev : CamPose) (m : Bool), List.Chain' (fun a b => a ≠ b) (prev :: ps) →
      runMoveEnd true ps ⟨prev, m⟩ =
        (List.replicate ps.length false,
         ⟨ps.getLastD prev, if ps = [] then m else true⟩) := by
  induction ps with
  | nil =>
    intro prev m _
    simp [runMoveEnd]
  | cons p rest ih =>
    intro prev m h
    rw [List.chain'_cons] at h
    simp [runMoveEnd, checkMoveEnd, h.1, ih p true h.2, List.replicate_succ,
      List.getLastD_cons, ite_self]
    cases rest with
    | nil => simp
    | cons q t =>
      rw [← List.getLastD_eq_getLast?, ← List.getLastD_eq_getLast?,
        List.getLastD_cons, List.getLastD_cons, List.getLastD_cons]

/-- Helper for C4: running checkMoveEnd over concatenated frame sequences
processes them in order, threading the bookkeeping state. -/
theorem runMoveEnd_append (xs ys : List CamPose) (s : MoveState) :
    runMoveEnd true (xs ++ ys) s =
      ((runMoveEnd true xs s).1 ++ (runMoveEnd true ys (runMoveEnd true xs s).2).1,
       (runMoveEnd true ys (runMoveEnd true xs s).2).2) := by
  induction xs generalizing s with
  | nil => simp [runMoveEnd]
  | cons p rest ih => simp [runMoveEnd, ih]

/-- C4: with a moveend handler registered and the snapshot initialized to
the starting pose, (i) a pose that never changes fires moveend zero times,
(ii) a pose that changes on every frame fires zero times, and (iii) a run
of continuously changing poses followed by one or more frames of the same
pose fires exactly once (on the first stationary frame). -/
theorem c4_checkMoveEnd (q0 : CamPose) (ms : List CamPose) (n : ℕ) :
    moveEndFires (List.replicate n q0) ⟨q0, false⟩ = 0
    ∧ (List.Chain' (fun a b => a ≠ b) (q0 :: ms) →
        moveEndFires ms ⟨q0, false⟩ = 0)
    ∧ (List.Chain' (fun a b => a ≠ b) (q0 :: ms) → ms ≠ [] →
        moveEndFires (ms ++ List.replicate (n + 1) (ms.getLastD q0)) ⟨q0, false⟩ = 1) := by
  refine ⟨?_, fun h => ?_, fun h hne => ?_⟩
  · simp [moveEndFires, runMoveEnd_stationary, List.count_replicate]
  · simp [moveEndFires, runMoveEnd_moving ms q0 false h, List.count_replicate]
  · have hm := runMoveEnd_moving ms q0 false h
    simp only [moveEndFires, runMoveEnd_append, hm, if_neg hne]
    rw [List.replicate_succ]
    simp only [runMoveEnd, checkMoveEnd, if_pos rfl, if_true,
      runMoveEnd_stationary (ms.getLastD q0) n]
    simp [List.count_append, List.count_replicate]

/-- Closed instance of c4_checkMoveEnd: one frame of movement followed by
two identical frames fires moveend exactly once. -/
theorem c4_checkMoveEnd_witness :
    moveEndFires ([exPose1] ++ List.replicate 1 ([exPose1].getLastD exPose0))
      ⟨exPose0, false⟩ = 1 :=
  (c4_checkMoveEnd exPose0 [exPose1] 0).2.2
    (List.chain'_cons.mpr ⟨by simp [exPose0, exPose1], List.chain'_singleton _⟩)
    (by simp)

/-- C5: projectedSize is atan(r / distance(eye, p)) scaled by the projection
constant min(viewportWidth, viewportHeight) / (view angle in radians); for
a positive projection constant it strictly decreases in the distance for a
fixed positive radius, and strictly increases in the radius at a fixed
positive distance. -/
theorem c5_projectedSize (c : CameraProj) (p q : Vec3 ℝ) (r r1 r2 : ℝ) :
    c.projectedSize p r =
      Real.arctan (r / Vec3.distR c.eye p) *
        (min c.clientWidth c.clientHeight / (c.viewAngle * (Real.pi / 180)))
    ∧ (0 < r → 0 < c.projSizeConst → 0 < Vec3.distR c.eye p →
        Vec3.distR c.eye p < Vec3.distR c.eye q →
        c.projectedSize q r < c.projectedSize p r)
    ∧ (0 ≤ r1 → r1 < r2 → 0 < Vec3.distR c.eye p → 0 < c.projSizeConst →
        c.projectedSize p r1 < c.projectedSize p r2) := by
  refine ⟨rfl, fun hr hc hd hlt => ?_, fun h0 hlt hd hc => ?_⟩
  · unfold CameraProj.projectedSize
    exact mul_lt_mul_of_pos_right
      (Real.arctan_strictMono (div_lt_div_of_pos_left hr hd hlt)) hc
  · unfold CameraProj.projectedSize
    exact mul_lt_mul_of_pos_right
      (Real.arctan_strictMono ((div_lt_div_iff_of_pos_right hd).mpr hlt)) hc

/-- Closed instance of c5_projectedSize: at a 100 x 100 viewport with a 45
degree view angle, moving the far point from distance 1 to distance 2
shrinks the projected size, and doubling the radius at distance 1 grows
it. -/
theorem c5_projectedSize_witness :
    exCamProj.projectedSize ⟨2, 0, 0⟩ 1 < exCamProj.projectedSize ⟨1, 0, 0⟩ 1
    ∧ exCamProj.projectedSize ⟨1, 0, 0⟩ 1 < exCamProj.projectedSize ⟨1, 0, 0⟩ 2 := by
  have hd1 : Vec3.distR exCamProj.eye ⟨1, 0, 0⟩ = 1 := by
    simp [Vec3.distR, exCamProj]
  have hd2 : Vec3.distR exCamProj.eye ⟨2, 0, 0⟩ = 2 := by
    simp only [Vec3.distR, exCamProj]
    rw [show ((2 : ℝ) - 0) ^ 2 + (0 - 0) ^ 2 + (0 - 0) ^ 2 = 2 ^ 2 by norm_num]
    exact Real.sqrt_sq (by norm_num)
  have hc : 0 < exCamProj.projSizeConst := by
    unfold CameraProj.projSizeConst RADIANS exCamProj
    have hpi := Real.pi_pos
    positivity
  constructor
  · exact (c5_projectedSize exCamProj ⟨1, 0, 0⟩ ⟨2, 0, 0⟩ 1 0 0).2.1
      (by norm_num) hc (by rw [hd1]; norm_num) (by rw [hd1, hd2]; norm_num)
  · exact (c5_projectedSize exCamProj ⟨1, 0, 0⟩ ⟨1, 0, 0⟩ 0 1 2).2.2
      (by norm_num) (by norm_num) (by rw [hd1]; norm_num) hc

/-- C6 counterexample: starting from the constructor's basis, pitching by
90 degrees then yawing by 90 degrees produces a different camera state
than yawing first and pitching second, so the pose mutations do not all
commute. -/
theorem c6_rotations_counterexample :
    (exCam.pitch 90).yaw 90 ≠ (exCam.yaw 90).pitch 90 := by
  have hangle : RADIANS * 90 = Real.pi / 2 := by
    unfold RADIANS
    ring
  have hc : Real.cos (RADIANS * 90) = 0 := by
    rw [hangle]
    exact Real.cos_pi_div_two
  have hs : Real.sin (RADIANS * 90) = 1 := by
    rw [hangle]
    exact Real.sin_pi_div_two
  intro hcontra
  have hx := congrArg (fun s => s.u.x) hcontra
  simp [CamState.pitch, CamState.yaw, exCam, hc, hs] at hx

/-- C6 amended: pose mutations of the same kind commute: two slides, two
pitches, two yaws, or two rolls applied in either order produce the same
eye position and basis. -/
theorem c6_same_kind_mutations_commute (c : CamState)
    (a b du dv dn du2 dv2 dn2 : ℝ) :
    (c.pitch a).pitch b = (c.pitch b).pitch a
    ∧ (c.yaw a).yaw b = (c.yaw b).yaw a
    ∧ (c.roll a).roll b = (c.roll b).roll a
    ∧ (c.slide du dv dn).slide du2 dv2 dn2 = (c.slide du2 dv2 dn2).slide du dv dn := by
  refine ⟨?_, ?_, ?_, ?_⟩ <;>
    · simp only [CamState.pitch, CamState.yaw, CamState.roll, CamState.slide]
      ext <;> dsimp only <;> ring

end OG
